import Mathlib

/-!
Verification development for the SentiTrade Signal Generation & Risk Engine.

The repository ships the React frontend (components, hooks, mock fallbacks)
while the Python engine itself (DivergenceDetector, KellyPositionSizer,
RiskRewardEvaluator, SignalGenerator, BacktestEngine) is only declared by the
backend README and the frontend callers.  Engine definitions below are
therefore modelled from the specification; frontend definitions are shallow
embeddings of the TypeScript in the repository.  All market arithmetic is
embedded over the rationals.
-/

namespace SentiTrade

/-! ## DivergenceDetector (engine) -/

/-- Divergence event type, spec data model: type ∈ \x7bbullish, bearish\x7d. -/
inductive DivType where
  | bullish
  | bearish
  deriving DecidableEq, Repr

/-- One aligned (price, sentiment) sample fed to the detector: the close of
the price candle and the sentiment score on the 0-100 scale. -/
structure Sample where
  close : ℚ
  sentiment : ℚ
  deriving DecidableEq, Repr

/-- Spec data model DivergenceEvent (immutable payload fields). -/
structure DivergenceEvent where
  dtype : DivType
  price_change_pct : ℚ
  sentiment_change_pts : ℚ
  deriving DecidableEq, Repr

/-- Modelled from the spec: price_change_pct for the consecutive pair
(i-1, i) is (close_i - close_prev) / close_prev * 100.  The engine source is
not in the repository. -/
def priceChangePct (prev cur : ℚ) : ℚ :=
  (cur - prev) / prev * 100

/-- Modelled from the spec: evaluate one consecutive pair of samples.
Bullish trigger: price_change_pct < -threshold_price AND
sentiment_change_pts > threshold_sentiment, strict inequalities only;
bearish is symmetric with signs reversed.  Boundary values never trigger. -/
def evalPair (tp ts : ℚ) (a b : Sample) : Option DivergenceEvent :=
  if priceChangePct a.close b.close < -tp ∧ b.sentiment - a.sentiment > ts then
    some ⟨DivType.bullish, priceChangePct a.close b.close, b.sentiment - a.sentiment⟩
  else if priceChangePct a.close b.close > tp ∧ b.sentiment - a.sentiment < -ts then
    some ⟨DivType.bearish, priceChangePct a.close b.close, b.sentiment - a.sentiment⟩
  else
    none

/-- Modelled from the spec: scan the consecutive pairs of the series,
tagging each emitted event with the index of the later sample of its pair.
`i` is the index of the head of `rest` in the full series. -/
def detectFrom (tp ts : ℚ) (i : Nat) (prev : Sample) :
    List Sample → List (Nat × DivergenceEvent)
  | [] => []
  | b :: rest =>
    match evalPair tp ts prev b with
    | some e => (i, e) :: detectFrom tp ts (i + 1) b rest
    | none => detectFrom tp ts (i + 1) b rest

/-- Modelled from the spec: the detector over an ordered series of aligned
samples; fewer than 3 points yields an empty sequence, never an error. -/
def detect (tp ts : ℚ) (xs : List Sample) : List (Nat × DivergenceEvent) :=
  match xs with
  | [] => []
  | p :: rest => if xs.length < 3 then [] else detectFrom tp ts 1 p rest

/-- A bullish event is emitted at index `i` of the series. -/
def emitsBullishAt (tp ts : ℚ) (xs : List Sample) (i : Nat) : Prop :=
  ∃ e, (i, e) ∈ detect tp ts xs ∧ e.dtype = DivType.bullish

instance (tp ts : ℚ) (xs : List Sample) (i : Nat) :
    Decidable (emitsBullishAt tp ts xs i) := by
  unfold emitsBullishAt
  exact decidable_of_iff
    (∃ p ∈ detect tp ts xs, p.1 = i ∧ p.2.dtype = DivType.bullish)
    ⟨fun ⟨p, hp, h1, h2⟩ => ⟨p.2, by simpa [← h1] using hp, h2⟩,
     fun ⟨e, he, hd⟩ => ⟨(i, e), he, rfl, hd⟩⟩

lemma mem_detectFrom (tp ts : ℚ) (e : DivergenceEvent) :
    ∀ (rest : List Sample) (prev : Sample) (j i : Nat),
      (i, e) ∈ detectFrom tp ts j prev rest ↔
        ∃ k a b, (prev :: rest).get? k = some a ∧ rest.get? k = some b ∧
          i = j + k ∧ evalPair tp ts a b = some e := by
  intro rest
  induction rest with
  | nil =>
    intro prev j i
    simp [detectFrom]
  | cons b rest2 ih =>
    intro prev j i
    unfold detectFrom
    split
    next e0 hev =>
      constructor
      · intro hmem
        rcases List.mem_cons.mp hmem with h | h
        · injection h with h1 h2
          subst h1
          subst h2
          exact ⟨0, prev, b, rfl, rfl, by omega, hev⟩
        · rcases (ih b (j + 1) i).mp h with ⟨k, a2, b2, ha, hb, hi, hevp⟩
          exact ⟨k + 1, a2, b2, ha, hb, by omega, hevp⟩
      · rintro ⟨k, a2, b2, ha, hb, hi, hevp⟩
        cases k with
        | zero =>
          simp only [List.get?_cons_zero, Option.some.injEq] at ha hb
          subst ha
          subst hb
          rw [hev] at hevp
          injection hevp with h3
          subst h3
          have hij : i = j := by omega
          subst hij
          exact List.mem_cons_self _ _
        | succ k2 =>
          simp only [List.get?_cons_succ] at ha hb
          refine List.mem_cons_of_mem _ ?_
          exact (ih b (j + 1) i).mpr ⟨k2, a2, b2, ha, hb, by omega, hevp⟩
    next hev =>
      rw [ih b (j + 1) i]
      constructor
      · rintro ⟨k, a2, b2, ha, hb, hi, hevp⟩
        refine ⟨k + 1, a2, b2, ?_, ?_, by omega, hevp⟩
        · simpa using ha
        · simpa using hb
      · rintro ⟨k, a2, b2, ha, hb, hi, hevp⟩
        cases k with
        | zero =>
          simp only [List.get?_cons_zero, Option.some.injEq] at ha hb
          subst ha
          subst hb
          rw [hev] at hevp
          exact absurd hevp (by simp)
        | succ k2 =>
          simp only [List.get?_cons_succ] at ha hb
          exact ⟨k2, a2, b2, ha, hb, by omega, hevp⟩

lemma mem_detect (tp ts : ℚ) (xs : List Sample) (i : Nat) (e : DivergenceEvent)
    (hlen : 3 ≤ xs.length) :
    (i, e) ∈ detect tp ts xs ↔
      ∃ a b, xs.get? (i - 1) = some a ∧ xs.get? i = some b ∧
        1 ≤ i ∧ evalPair tp ts a b = some e := by
  cases xs with
  | nil => simp at hlen
  | cons p rest =>
    unfold detect
    have hnl : ¬ (p :: rest).length < 3 := by omega
    simp only [hnl, if_false]
    rw [mem_detectFrom]
    constructor
    · rintro ⟨k, a, b, ha, hb, hi, hev⟩
      refine ⟨a, b, ?_, ?_, by omega, hev⟩
      · have : i - 1 = k := by omega
        rw [this]; exact ha
      · have : i = k + 1 := by omega
        rw [this]
        simpa using hb
    · rintro ⟨a, b, ha, hb, h1, hev⟩
      refine ⟨i - 1, a, b, ha, ?_, by omega, hev⟩
      have : i = (i - 1) + 1 := by omega
      rw [this] at hb
      simpa using hb

lemma evalPair_bullish_iff (tp ts : ℚ) (a b : Sample) :
    (∃ e, evalPair tp ts a b = some e ∧ e.dtype = DivType.bullish) ↔
      (priceChangePct a.close b.close < -tp ∧ b.sentiment - a.sentiment > ts) := by
  unfold evalPair
  split
  next h =>
    simpa using h
  next h =>
    split
    next h2 =>
      constructor
      · rintro ⟨e, he, hd⟩
        injection he with he
        rw [← he] at hd
        exact absurd hd (by simp)
      · intro hc
        exact absurd hc h
    next h2 =>
      constructor
      · rintro ⟨e, he, hd⟩
        exact absurd he (by simp)
      · intro hc
        exact absurd hc h

lemma emitsBullishAt_iff (tp ts : ℚ) (xs : List Sample) (i : Nat) (a b : Sample)
    (hlen : 3 ≤ xs.length) (ha : xs.get? (i - 1) = some a)
    (hb : xs.get? i = some b) (h1 : 1 ≤ i) :
    emitsBullishAt tp ts xs i ↔
      (priceChangePct a.close b.close < -tp ∧ b.sentiment - a.sentiment > ts) := by
  unfold emitsBullishAt
  rw [← evalPair_bullish_iff tp ts a b]
  constructor
  · rintro ⟨e, hmem, hd⟩
    rcases (mem_detect tp ts xs i e hlen).mp hmem with ⟨a2, b2, ha2, hb2, _, hev⟩
    rw [ha] at ha2
    rw [hb] at hb2
    injection ha2 with ha2
    injection hb2 with hb2
    subst ha2
    subst hb2
    exact ⟨e, hev, hd⟩
  · rintro ⟨e, hev, hd⟩
    exact ⟨e, (mem_detect tp ts xs i e hlen).mpr ⟨a, b, ha, hb, h1, hev⟩, hd⟩

/-- Scenario A input of the spec: prices [100, 100, 98, 96, 95] aligned with
sentiment [50, 55, 58, 75, 76]. -/
def scenarioA : List Sample :=
  [⟨100, 50⟩, ⟨100, 55⟩, ⟨98, 58⟩, ⟨96, 75⟩, ⟨95, 76⟩]

lemma detect_scenarioA :
    detect 2 5 scenarioA = [(3, ⟨DivType.bullish, -100/49, 17⟩)] := by
  norm_num [detect, detectFrom, evalPair, priceChangePct, scenarioA]

/-- C2: with default thresholds (price 2, sentiment 5), a BULLISH event is
emitted at a consecutive index exactly when the price change is strictly
below -2 percent and the sentiment change strictly above 5 points; on
Scenario A the detector emits exactly one BULLISH event, at index 3, with
price_change_pct = -100/49 (within 0.01 of -2.04) and
sentiment_change_pts = 17, while index 2 sits exactly on the -2 boundary and
does not trigger. -/
theorem divergence_bullish_strict_threshold_and_scenarioA
    (xs : List Sample) (i : Nat) (a b : Sample)
    (hlen : 3 ≤ xs.length) (ha : xs.get? (i - 1) = some a)
    (hb : xs.get? i = some b) (h1 : 1 ≤ i) :
    (emitsBullishAt 2 5 xs i ↔
      (priceChangePct a.close b.close < -2 ∧ b.sentiment - a.sentiment > 5)) ∧
    detect 2 5 scenarioA = [(3, ⟨DivType.bullish, -100/49, 17⟩)] ∧
    |(-100 : ℚ)/49 - (-204/100)| < 1/100 ∧
    ¬ emitsBullishAt 2 5 scenarioA 2 ∧
    priceChangePct 100 98 = -2 := by
  refine ⟨emitsBullishAt_iff 2 5 xs i a b hlen ha hb h1, detect_scenarioA, ?_, ?_, ?_⟩
  · rw [abs_lt]
    constructor <;> norm_num
  · rintro ⟨e, hmem, hd⟩
    rw [detect_scenarioA] at hmem
    simp at hmem
  · norm_num [priceChangePct]

/-- Witness for C2 at Scenario A, index 3. -/
theorem divergence_bullish_strict_threshold_and_scenarioA_witness :
    (emitsBullishAt 2 5 scenarioA 3 ↔
      (priceChangePct 98 96 < -2 ∧ (75 : ℚ) - 58 > 5)) ∧
    detect 2 5 scenarioA = [(3, ⟨DivType.bullish, -100/49, 17⟩)] ∧
    |(-100 : ℚ)/49 - (-204/100)| < 1/100 ∧
    ¬ emitsBullishAt 2 5 scenarioA 2 ∧
    priceChangePct 100 98 = -2 :=
  divergence_bullish_strict_threshold_and_scenarioA scenarioA 3 ⟨98, 58⟩ ⟨96, 75⟩
    (by decide) rfl rfl (by decide)

/-! ## KellyPositionSizer (engine) -/

/-- Status grading of a risk/reward ratio, spec 4.2: ratio ≥ 3 Excellent,
≥ 2 Good, ≥ 1 Fair, else Poor. -/
inductive RRStatus where
  | Excellent
  | Good
  | Fair
  | Poor
  deriving DecidableEq, Repr

/-- Modelled from the spec: the status thresholds of KellyPositionSizer. -/
def statusOfRatio (r : ℚ) : RRStatus :=
  if r ≥ 3 then RRStatus.Excellent
  else if r ≥ 2 then RRStatus.Good
  else if r ≥ 1 then RRStatus.Fair
  else RRStatus.Poor

structure KellyInput where
  portfolio_size : ℚ
  risk_percentage : ℚ
  entry_price : ℚ
  stop_loss : ℚ
  take_profit : ℚ
  confidence : ℚ
  volatility : ℚ
  deriving DecidableEq, Repr

structure KellyResult where
  quantity : ℚ
  position_size_usd : ℚ
  position_size_percent : ℚ
  max_loss_usd : ℚ
  max_gain_usd : ℚ
  risk_reward_ratio : ℚ
  status : RRStatus
  deriving DecidableEq, Repr

/-- The configurable position-size ceiling, default 25 percent. -/
def positionCeiling : ℚ := 25

/-- Modelled from the spec: the KellyPositionSizer algorithm of spec 4.2
(the Python engine is not in the repository).
max_loss_budget = portfolio_size * risk_percentage / 100;
per_unit_risk = |entry_price - stop_loss|;
raw_quantity = max_loss_budget / per_unit_risk;
confidence scaling quantity = raw_quantity * (confidence/100) / (1 + volatility/10);
position_size_percent = position value / portfolio * 100 (the repository
frontend displays position_size_usd 5000 as 50 percent of a 10000
portfolio), clamped to the ceiling with the quantity recomputed downward. -/
def kellyCore (inp : KellyInput) : KellyResult :=
  let max_loss_budget := inp.portfolio_size * inp.risk_percentage / 100
  let per_unit_risk := |inp.entry_price - inp.stop_loss|
  let raw_quantity := max_loss_budget / per_unit_risk
  let scaled_quantity := raw_quantity * (inp.confidence / 100) / (1 + inp.volatility / 10)
  let unclamped_percent := scaled_quantity * inp.entry_price / inp.portfolio_size * 100
  let pct := min positionCeiling unclamped_percent
  let quantity := pct / 100 * inp.portfolio_size / inp.entry_price
  let max_loss := quantity * per_unit_risk
  let max_gain := quantity * |inp.take_profit - inp.entry_price|
  { quantity := quantity
    position_size_usd := quantity * inp.entry_price
    position_size_percent := pct
    max_loss_usd := max_loss
    max_gain_usd := max_gain
    risk_reward_ratio := max_gain / max_loss
    status := statusOfRatio (max_gain / max_loss) }

inductive RiskError where
  | InvalidRiskParameters
  deriving DecidableEq, Repr

/-- Modelled from the spec: KellyPositionSizer fails with
InvalidRiskParameters when entry_price = stop_loss or any price ≤ 0. -/
def kellySizer (inp : KellyInput) : Except RiskError KellyResult :=
  if inp.entry_price = inp.stop_loss ∨ inp.entry_price ≤ 0 ∨
      inp.stop_loss ≤ 0 ∨ inp.take_profit ≤ 0 then
    Except.error RiskError.InvalidRiskParameters
  else
    Except.ok (kellyCore inp)

/-- Scenario B input: portfolio 10000, risk 2 percent, entry 100, stop 95,
take profit 110, confidence 90, volatility 1. -/
def scenarioB : KellyInput :=
  ⟨10000, 2, 100, 95, 110, 90, 1⟩

/-! ## RiskRewardEvaluator (engine) -/

inductive Rec where
  | ACCEPT
  | REJECT
  deriving DecidableEq, Repr

structure RRAssessment where
  ratio : ℚ
  quality_score : ℚ
  historical_win_rate : ℚ
  status : RRStatus
  recommendation : Rec
  deriving DecidableEq, Repr

/-- Modelled from the spec: normalize(ratio) saturates at 100 for
ratio ≥ 5; below that the linear ramp ratio / 5 * 100. -/
def normalizeRatio (r : ℚ) : ℚ :=
  min 100 (r / 5 * 100)

/-- Modelled from the spec: RiskRewardEvaluator, spec 4.3.
quality_score = w1 * normalize(ratio) + w2 * historical_win_rate;
recommendation = ACCEPT iff quality_score ≥ accept_threshold and
ratio ≥ 1.5, otherwise REJECT. -/
def riskRewardEvaluator (w1 w2 accept_threshold r win_rate : ℚ) : RRAssessment :=
  let q := w1 * normalizeRatio r + w2 * win_rate
  { ratio := r
    quality_score := q
    historical_win_rate := win_rate
    status := statusOfRatio r
    recommendation := if q ≥ accept_threshold ∧ r ≥ 3/2 then Rec.ACCEPT else Rec.REJECT }

/-! ## Signal data model and the frontend mock signal -/

inductive SigAction where
  | BUY
  | SELL
  deriving DecidableEq, Repr

/-- Signal payload, from the Signal interface of useSignal.ts
(src/unnamed/part_007); expires_at is kept as a millisecond offset. -/
structure Signal where
  signal_id : String
  asset_code : String
  action : SigAction
  confidence : ℚ
  entry_price : ℚ
  stop_loss : ℚ
  take_profit : ℚ
  position_size_percent : ℚ
  risk_reward_ratio : ℚ
  expires_in_ms : Nat
  deriving DecidableEq, Repr

/-- The hard-coded fallback signal of useSignal.ts, used whenever the API
request fails or returns no data. -/
def MOCK_SIGNAL : Signal :=
  { signal_id := "mock-signal-001"
    asset_code := "BTC/USDT"
    action := SigAction.BUY
    confidence := 87
    entry_price := 42850.50
    stop_loss := 41500.00
    take_profit := 45500.00
    position_size_percent := 2.5
    risk_reward_ratio := 1.96
    expires_in_ms := 30 * 60 * 1000 }

/-- Reward amount of a BUY signal: distance from entry to take profit. -/
def rewardAmount (s : Signal) : ℚ :=
  s.take_profit - s.entry_price

/-- Risk amount of a BUY signal: distance from entry to stop loss. -/
def riskAmount (s : Signal) : ℚ :=
  s.entry_price - s.stop_loss

/-- Round a rational to two decimal places, half away from zero for
positive values. -/
def roundTo2 (q : ℚ) : ℚ :=
  ((⌊q * 100 + 1/2⌋ : ℤ) : ℚ) / 100

/-- C3 counterexample: on Scenario B the spec algorithm clamps the
confidence-scaled quantity (360/11 ≈ 32.73 units, 32.73 percent of the
portfolio) to the 25 percent ceiling, so max_loss_usd is 125, which is not
within even a 25 percent tolerance of the claimed ≈ 200. -/
theorem kelly_scenarioB_max_loss_not_approx_200 :
    kellySizer scenarioB =
      Except.ok { quantity := 25, position_size_usd := 2500, position_size_percent := 25,
                  max_loss_usd := 125, max_gain_usd := 250, risk_reward_ratio := 2,
                  status := RRStatus.Good } ∧
    ¬ (|(125 : ℚ) - 200| ≤ 50) := by
  constructor
  · norm_num [kellySizer, kellyCore, scenarioB, statusOfRatio, positionCeiling]
  · intro h
    rw [abs_le] at h
    have h1 := h.1
    norm_num at h1

/-- C3 amended: KellyPositionSizer on Scenario B succeeds and returns
risk_reward_ratio = 2.0 as claimed, but max_loss_usd = 125, not ≈ 200: the
25 percent position ceiling binds (the unclamped confidence-scaled position
is ≈ 32.73 percent of the portfolio) and the quantity is recomputed
downward to 25 units. -/
theorem kelly_scenarioB_amended :
    kellySizer scenarioB = Except.ok (kellyCore scenarioB) ∧
    (kellyCore scenarioB).max_loss_usd = 125 ∧
    (kellyCore scenarioB).risk_reward_ratio = 2 ∧
    (kellyCore scenarioB).position_size_percent = positionCeiling := by
  refine ⟨?_, ?_, ?_, ?_⟩ <;>
    norm_num [kellySizer, kellyCore, scenarioB, statusOfRatio, positionCeiling]

/-- C6 counterexample: the repository's hard-coded MOCK_SIGNAL, served at
the UI boundary by useSignal, stores risk_reward_ratio 1.96 while
reward_amount / risk_amount is 5299/2701 = 1.96186..., so the stored ratio
is not exactly reward divided by risk. -/
theorem mock_signal_ratio_not_exact :
    MOCK_SIGNAL.risk_reward_ratio ≠ rewardAmount MOCK_SIGNAL / riskAmount MOCK_SIGNAL := by
  norm_num [MOCK_SIGNAL, rewardAmount, riskAmount]

/-- C6 amended: for the spec-modelled KellyPositionSizer the identities
max_loss_usd = quantity * per_unit_risk,
max_gain_usd = quantity * |take_profit - entry_price| and
risk_reward_ratio = max_gain_usd / max_loss_usd hold exactly for every
input, while the repository's mock Signal stores the ratio only after
rounding reward/risk to two decimal places. -/
theorem risk_reward_ratio_exact_in_engine_rounded_in_mock (inp : KellyInput) :
    (kellyCore inp).max_loss_usd =
      (kellyCore inp).quantity * |inp.entry_price - inp.stop_loss| ∧
    (kellyCore inp).max_gain_usd =
      (kellyCore inp).quantity * |inp.take_profit - inp.entry_price| ∧
    (kellyCore inp).risk_reward_ratio =
      (kellyCore inp).max_gain_usd / (kellyCore inp).max_loss_usd ∧
    MOCK_SIGNAL.risk_reward_ratio =
      roundTo2 (rewardAmount MOCK_SIGNAL / riskAmount MOCK_SIGNAL) := by
  refine ⟨rfl, rfl, rfl, ?_⟩
  norm_num [MOCK_SIGNAL, rewardAmount, riskAmount, roundTo2]

/-- Witness for the amended C6 at the Scenario B input. -/
theorem risk_reward_ratio_exact_in_engine_rounded_in_mock_witness :
    (kellyCore scenarioB).max_loss_usd =
      (kellyCore scenarioB).quantity * |scenarioB.entry_price - scenarioB.stop_loss| ∧
    (kellyCore scenarioB).max_gain_usd =
      (kellyCore scenarioB).quantity * |scenarioB.take_profit - scenarioB.entry_price| ∧
    (kellyCore scenarioB).risk_reward_ratio =
      (kellyCore scenarioB).max_gain_usd / (kellyCore scenarioB).max_loss_usd ∧
    MOCK_SIGNAL.risk_reward_ratio =
      roundTo2 (rewardAmount MOCK_SIGNAL / riskAmount MOCK_SIGNAL) :=
  risk_reward_ratio_exact_in_engine_rounded_in_mock scenarioB

/-- C8 counterexample: with default weights 0.5/0.5 and the normalize ramp
saturating at ratio 5, Scenario C (ratio 3.2, historical win rate 65.4)
yields quality_score = 0.5 * 64 + 0.5 * 65.4 = 64.7, which is not ≥ 80. -/
theorem evaluator_scenarioC_quality_below_80 :
    (riskRewardEvaluator (1/2) (1/2) 60 (16/5) (327/5)).quality_score = 647/10 ∧
    ¬ ((647 : ℚ)/10 ≥ 80) := by
  constructor
  · norm_num [riskRewardEvaluator, normalizeRatio]
  · norm_num

/-- C8 amended: on Scenario C the evaluator returns quality_score = 64.7,
which clears the default accept threshold 60 (though not 80), and since
ratio 3.2 ≥ 1.5 the recommendation is ACCEPT. -/
theorem evaluator_scenarioC_amended :
    (riskRewardEvaluator (1/2) (1/2) 60 (16/5) (327/5)).quality_score = 647/10 ∧
    (647 : ℚ)/10 ≥ 60 ∧
    (riskRewardEvaluator (1/2) (1/2) 60 (16/5) (327/5)).recommendation = Rec.ACCEPT := by
  refine ⟨?_, by norm_num, ?_⟩ <;> norm_num [riskRewardEvaluator, normalizeRatio]

/-- C7: with all other inputs fixed, position_size_percent is monotone
non-decreasing in confidence (volatility fixed), monotone non-increasing in
volatility (confidence fixed), and never exceeds the configured 25 percent
ceiling. -/
theorem kelly_position_pct_monotone_and_bounded
    (p rp e sl tpr c1 c2 v1 v2 : ℚ)
    (hp : 0 < p) (hrp : 0 ≤ rp) (he : 0 < e)
    (hc0 : 0 ≤ c1) (hc : c1 ≤ c2) (hv0 : 0 ≤ v1) (hv : v1 ≤ v2) :
    ((kellyCore ⟨p, rp, e, sl, tpr, c1, v1⟩).position_size_percent ≤
      (kellyCore ⟨p, rp, e, sl, tpr, c2, v1⟩).position_size_percent) ∧
    ((kellyCore ⟨p, rp, e, sl, tpr, c1, v2⟩).position_size_percent ≤
      (kellyCore ⟨p, rp, e, sl, tpr, c1, v1⟩).position_size_percent) ∧
    (kellyCore ⟨p, rp, e, sl, tpr, c1, v1⟩).position_size_percent ≤ positionCeiling := by
  have hX : (0 : ℚ) ≤ p * rp / 100 / |e - sl| :=
    div_nonneg (div_nonneg (mul_nonneg hp.le hrp) (by norm_num)) (abs_nonneg _)
  have hD1 : (0 : ℚ) < 1 + v1 / 10 := by linarith
  have hD2 : (0 : ℚ) < 1 + v2 / 10 := by linarith
  unfold kellyCore
  simp only
  refine ⟨?_, ?_, min_le_left _ _⟩
  · apply min_le_min (le_refl _)
    gcongr
  · apply min_le_min (le_refl _)
    gcongr

/-- Witness for C7: confidence 50 ≤ 90 and volatility 0 ≤ 1 around the
Scenario B price levels. -/
theorem kelly_position_pct_monotone_and_bounded_witness :
    ((kellyCore ⟨10000, 2, 100, 95, 110, 50, 0⟩).position_size_percent ≤
      (kellyCore ⟨10000, 2, 100, 95, 110, 90, 0⟩).position_size_percent) ∧
    ((kellyCore ⟨10000, 2, 100, 95, 110, 50, 1⟩).position_size_percent ≤
      (kellyCore ⟨10000, 2, 100, 95, 110, 50, 0⟩).position_size_percent) ∧
    (kellyCore ⟨10000, 2, 100, 95, 110, 50, 0⟩).position_size_percent ≤ positionCeiling :=
  kelly_position_pct_monotone_and_bounded 10000 2 100 95 110 50 90 0 1
    (by norm_num) (by norm_num) (by norm_num) (by norm_num) (by norm_num)
    (by norm_num) (by norm_num)

/-! ## SignalGenerator per-asset lifecycle state machine (engine) -/

/-- Signal lifecycle states of the spec data model. -/
inductive SigState where
  | ACTIVE
  | ACCEPTED
  | DISMISSED
  | EXPIRED
  deriving DecidableEq, Repr

/-- Per-asset SignalGenerator state: the signals this asset has produced,
keyed by id with their lifecycle state, plus the signal ids that still have
a scheduled TTL expiry outstanding. -/
structure GenState where
  signals : List (Nat × SigState)
  timers : List Nat
  deriving DecidableEq, Repr

/-- The serialized per-asset events of spec 4.4/5: a new qualifying
trigger, a scheduled TTL expiry firing, and the user transitions. -/
inductive GenEvent where
  | trigger (newId : Nat)
  | ttlFire (id : Nat)
  | accept (id : Nat)
  | dismiss (id : Nat)
  deriving DecidableEq, Repr

def lookupSig : List (Nat × SigState) → Nat → Option SigState
  | [], _ => none
  | q :: rest, id => if q.1 = id then some q.2 else lookupSig rest id

def setSignal (id : Nat) (s : SigState) : List (Nat × SigState) → List (Nat × SigState)
  | [] => []
  | q :: rest => (if q.1 = id then (q.1, s) else q) :: setSignal id s rest

/-- Mark whatever signal is currently ACTIVE as superseded (DISMISSED). -/
def supersedeActive : List (Nat × SigState) → List (Nat × SigState)
  | [] => []
  | q :: rest =>
    (if q.2 = SigState.ACTIVE then (q.1, SigState.DISMISSED) else q) :: supersedeActive rest

def activeCount : List (Nat × SigState) → Nat
  | [] => 0
  | q :: rest => (if q.2 = SigState.ACTIVE then 1 else 0) + activeCount rest

/-- Modelled from the spec: one serialized step of the per-asset signal
lifecycle (the SignalGenerator engine is not in the repository).  A
qualifying trigger installs the new ACTIVE signal, supersedes the prior
ACTIVE one and cancels its outstanding TTL in the same atomic step while
scheduling the TTL of the new signal; a TTL firing expires the signal it
was scheduled for and is a no-op if it has been cancelled; accept and
dismiss apply only to the currently ACTIVE signal and cancel its TTL. -/
def genStep (st : GenState) : GenEvent → GenState
  | GenEvent.trigger newId =>
      { signals := (newId, SigState.ACTIVE) :: supersedeActive st.signals
        timers := [newId] }
  | GenEvent.ttlFire id =>
      if id ∈ st.timers then
        { signals := setSignal id SigState.EXPIRED st.signals
          timers := st.timers.erase id }
      else st
  | GenEvent.accept id =>
      if lookupSig st.signals id = some SigState.ACTIVE then
        { signals := setSignal id SigState.ACCEPTED st.signals
          timers := st.timers.erase id }
      else st
  | GenEvent.dismiss id =>
      if lookupSig st.signals id = some SigState.ACTIVE then
        { signals := setSignal id SigState.DISMISSED st.signals
          timers := st.timers.erase id }
      else st

def initState : GenState := ⟨[], []⟩

/-- States reachable from the idle initial state by any interleaving of
tick-driven triggers, TTL firings, and user accept/dismiss events. -/
inductive Reachable : GenState → Prop where
  | init : Reachable initState
  | next (st : GenState) (ev : GenEvent) : Reachable st → Reachable (genStep st ev)

lemma activeCount_supersede (sigs : List (Nat × SigState)) :
    activeCount (supersedeActive sigs) = 0 := by
  induction sigs with
  | nil => rfl
  | cons q rest ih =>
    by_cases h : q.2 = SigState.ACTIVE
    · simp [supersedeActive, activeCount, h, ih]
    · simp [supersedeActive, activeCount, h, ih]

lemma activeCount_setSignal_le (id : Nat) (s : SigState) (hs : s ≠ SigState.ACTIVE)
    (sigs : List (Nat × SigState)) :
    activeCount (setSignal id s sigs) ≤ activeCount sigs := by
  induction sigs with
  | nil => simp [setSignal]
  | cons q rest ih =>
    by_cases h : q.1 = id
    · simp only [setSignal, h, if_pos]
      simp only [activeCount, hs, if_false, if_neg hs]
      split_ifs <;> omega
    · simp only [setSignal, if_neg h]
      simp only [activeCount]
      omega

lemma lookupSig_setSignal (id : Nat) (s : SigState) (id2 : Nat)
    (sigs : List (Nat × SigState)) :
    lookupSig (setSignal id s sigs) id2 =
      if id2 = id then (lookupSig sigs id2).map (fun _ => s)
      else lookupSig sigs id2 := by
  induction sigs with
  | nil => simp [setSignal, lookupSig]
  | cons q rest ih =>
    by_cases h1 : q.1 = id
    · by_cases h2 : q.1 = id2
      · have hid : id2 = id := by omega
        simp [setSignal, lookupSig, h1, h2, hid, ih]
      · have hid : ¬ id2 = id := by omega
        simp only [setSignal, lookupSig, h1, h2, hid, ih, if_true, if_false,
          if_neg hid, if_neg h2, if_neg (show ¬ id = id2 by omega), if_pos rfl]
    · by_cases h2 : q.1 = id2
      · have hid : ¬ id2 = id := by omega
        simp [setSignal, lookupSig, h1, h2, hid, ih]
      · simp [setSignal, lookupSig, h1, h2, ih]

lemma mem_erase_of_short (l : List Nat) (hlen : l.length ≤ 1) (a b : Nat)
    (h : b ∈ l.erase a) : b ∈ l ∧ b ≠ a := by
  cases l with
  | nil => simp [List.erase] at h
  | cons x xs =>
    cases xs with
    | cons y ys => simp at hlen
    | nil =>
      by_cases hxa : x = a
      · subst hxa
        simp at h
      · have herase : ([x] : List Nat).erase a = [x] := by
          simp [List.erase_cons, hxa]
        rw [herase] at h
        simp at h
        subst h
        exact ⟨by simp, hxa⟩

/-- The per-asset invariant: at most one ACTIVE signal, at most one
outstanding TTL, and every outstanding TTL belongs to the currently ACTIVE
signal. -/
def Inv (st : GenState) : Prop :=
  activeCount st.signals ≤ 1 ∧ st.timers.length ≤ 1 ∧
    ∀ id ∈ st.timers, lookupSig st.signals id = some SigState.ACTIVE

lemma inv_preserved_nonactive (st : GenState) (id : Nat) (s : SigState)
    (hs : s ≠ SigState.ACTIVE) (h1 : activeCount st.signals ≤ 1)
    (h2 : st.timers.length ≤ 1)
    (h3 : ∀ i ∈ st.timers, lookupSig st.signals i = some SigState.ACTIVE) :
    Inv ⟨setSignal id s st.signals, st.timers.erase id⟩ := by
  refine ⟨le_trans (activeCount_setSignal_le id s hs st.signals) h1,
    le_trans (List.Sublist.length_le (List.erase_sublist id st.timers)) h2, ?_⟩
  intro i hi
  obtain ⟨himem, hine⟩ := mem_erase_of_short st.timers h2 id i hi
  rw [lookupSig_setSignal, if_neg hine]
  exact h3 i himem

lemma reachable_inv {st : GenState} (h : Reachable st) : Inv st := by
  induction h with
  | init =>
    exact ⟨by simp [initState, activeCount], by simp [initState], by simp [initState]⟩
  | next st ev hst ih =>
    obtain ⟨h1, h2, h3⟩ := ih
    cases ev with
    | trigger newId =>
      refine ⟨?_, by simp [genStep], ?_⟩
      · simp [genStep, activeCount, activeCount_supersede]
      · intro id hid
        simp only [genStep, List.mem_singleton] at hid
        subst hid
        simp [genStep, lookupSig]
    | ttlFire id =>
      simp only [genStep]
      split_ifs with hmem
      · exact inv_preserved_nonactive st id SigState.EXPIRED (by simp) h1 h2 h3
      · exact ⟨h1, h2, h3⟩
    | accept id =>
      simp only [genStep]
      split_ifs with hl
      · exact inv_preserved_nonactive st id SigState.ACCEPTED (by simp) h1 h2 h3
      · exact ⟨h1, h2, h3⟩
    | dismiss id =>
      simp only [genStep]
      split_ifs with hl
      · exact inv_preserved_nonactive st id SigState.DISMISSED (by simp) h1 h2 h3
      · exact ⟨h1, h2, h3⟩

/-- C1: at every reachable per-asset state of the SignalGenerator state
machine, at most one signal is ACTIVE; every outstanding TTL expiry belongs
to the currently ACTIVE signal (so no stale TTL exists); a qualifying
trigger replaces the prior ACTIVE signal and cancels its outstanding TTL in
the same atomic step, leaving exactly the new signal's TTL scheduled; and a
TTL firing whose schedule was cancelled is a no-op, so no interleaving of
replacement, expiry and user accept/dismiss can expire the replacement
signal or exhibit two simultaneous ACTIVE signals. -/
theorem signalGenerator_at_most_one_active_and_atomic_ttl_cancel
    (st : GenState) (h : Reachable st) :
    activeCount st.signals ≤ 1 ∧
    (∀ id ∈ st.timers, lookupSig st.signals id = some SigState.ACTIVE) ∧
    (∀ newId, (genStep st (GenEvent.trigger newId)).timers = [newId] ∧
      activeCount (genStep st (GenEvent.trigger newId)).signals ≤ 1) ∧
    (∀ id, id ∉ st.timers → genStep st (GenEvent.ttlFire id) = st) := by
  obtain ⟨h1, h2, h3⟩ := reachable_inv h
  refine ⟨h1, h3, fun newId => ⟨rfl, ?_⟩, fun id hid => ?_⟩
  · simp [genStep, activeCount, activeCount_supersede]
  · simp [genStep, hid]

/-- Witness for C1 at the state reached by two successive triggers from the
idle initial state. -/
theorem signalGenerator_at_most_one_active_and_atomic_ttl_cancel_witness :
    activeCount (genStep (genStep initState (GenEvent.trigger 0)) (GenEvent.trigger 1)).signals ≤ 1 ∧
    (∀ id ∈ (genStep (genStep initState (GenEvent.trigger 0)) (GenEvent.trigger 1)).timers,
      lookupSig (genStep (genStep initState (GenEvent.trigger 0)) (GenEvent.trigger 1)).signals id =
        some SigState.ACTIVE) ∧
    (∀ newId,
      (genStep (genStep (genStep initState (GenEvent.trigger 0)) (GenEvent.trigger 1))
        (GenEvent.trigger newId)).timers = [newId] ∧
      activeCount (genStep (genStep (genStep initState (GenEvent.trigger 0)) (GenEvent.trigger 1))
        (GenEvent.trigger newId)).signals ≤ 1) ∧
    (∀ id, id ∉ (genStep (genStep initState (GenEvent.trigger 0)) (GenEvent.trigger 1)).timers →
      genStep (genStep (genStep initState (GenEvent.trigger 0)) (GenEvent.trigger 1))
        (GenEvent.ttlFire id) =
        genStep (genStep initState (GenEvent.trigger 0)) (GenEvent.trigger 1)) :=
  signalGenerator_at_most_one_active_and_atomic_ttl_cancel
    (genStep (genStep initState (GenEvent.trigger 0)) (GenEvent.trigger 1))
    (Reachable.next _ _ (Reachable.next _ _ Reachable.init))

/-! ## BacktestEngine (engine) -/

/-- One historical OHLC bar with its aligned sentiment score; the bar at
list position d carries the data of simulated day d.  Field names carry a
b front since open is reserved. -/
structure Bar where
  bopen : ℚ
  bhigh : ℚ
  blow : ℚ
  bclose : ℚ
  sentiment : ℚ
  deriving DecidableEq, Repr

def defaultBar : Bar := ⟨0, 0, 0, 0, 0⟩

def barSample (b : Bar) : Sample := ⟨b.bclose, b.sentiment⟩

/-- Modelled from the spec: the data visible at simulated day d, i.e. the
bars with timestamp ≤ d. -/
def visible (bars : List Bar) (d : Nat) : List Bar := bars.take (d + 1)

/-- Modelled from the spec: the replay decision at simulated day d -
whether the divergence logic fires a BUY signal at day d - computed only
from the visible prefix of the series. -/
def signalAt (tp ts : ℚ) (bars : List Bar) (d : Nat) : Bool :=
  (detect tp ts ((visible bars d).map barSample)).any
    (fun p => decide (p.1 = d) && decide (p.2.dtype = DivType.bullish))

structure Trade where
  signal_bar : Nat
  exec_bar : Nat
  exec_price : ℚ
  deriving DecidableEq, Repr

/-- Modelled from the spec: chronological replay; when the decision at day
d fires, the simulated trade executes at the open of the next bar d+1,
never at the signal bar's own close; a signal on the final bar has no next
open and produces no trade. -/
def runTrades (tp ts : ℚ) (bars : List Bar) (days : Nat) : List Trade :=
  (List.range days).filterMap (fun d =>
    if signalAt tp ts bars d ∧ d + 1 < bars.length then
      some ⟨d, d + 1, (bars.getD (d + 1) defaultBar).bopen⟩
    else none)

/-- Modelled from the spec: unresolved trades at horizon end are
marked-to-market at the final close. -/
def tradePnl (bars : List Bar) (t : Trade) : ℚ :=
  (bars.getD (bars.length - 1) defaultBar).bclose - t.exec_price

/-- A 31-bit linear congruential pseudo-random step. -/
def lcgNext (s : Nat) : Nat := (1103515245 * s + 12345) % 2147483648

/-- Draw k samples with replacement from the per-trade P&L list, summing
them, threading the PRNG state. -/
def drawSum (pnl : List ℚ) : Nat → Nat → ℚ × Nat
  | 0, s => (0, s)
  | k + 1, s =>
    let s2 := lcgNext s
    let v := pnl.getD (s2 / 65536 % pnl.length) 0
    let r := drawSum pnl k s2
    (v + r.1, r.2)

/-- Modelled from the spec: bootstrap-resample the realized per-trade P&L
sequence with replacement n times, rebuilding the terminal P&L of each
resample. -/
def bootstrapSums (pnl : List ℚ) : Nat → Nat → List ℚ
  | 0, _ => []
  | n + 1, s =>
    let r := drawSum pnl pnl.length s
    r.1 :: bootstrapSums pnl n r.2

/-- The 5th percentile of a list of outcomes. -/
def percentile05 (xs : List ℚ) : ℚ :=
  (List.insertionSort (· ≤ ·) xs).getD (5 * xs.length / 100) 0

structure BacktestOutput where
  equity_curve : List ℚ
  var_95 : ℚ
  deriving DecidableEq, Repr

/-- Modelled from the spec: runBacktest with an optional RNG seed; the
bootstrap var_95 uses the seed when one is supplied and otherwise draws a
fresh seed from ambient entropy, so unseeded runs vary run to run.  The
equity curve accumulates realized per-trade P&L over the starting
capital. -/
def runBacktest (tp ts : ℚ) (bars : List Bar) (days : Nat) (capital : ℚ)
    (mcIterations : Nat) (seed : Option Nat) (entropy : Nat) : BacktestOutput :=
  let trades := runTrades tp ts bars days
  let pnl := trades.map (tradePnl bars)
  let equity := pnl.scanl (fun acc v => acc + v) capital
  let s0 := seed.getD entropy
  let sums := bootstrapSums pnl mcIterations s0
  { equity_curve := equity, var_95 := - percentile05 sums }

/-- A five-bar synthetic series whose replay fires BUY signals at days 2
and 3: closes 100, 97, 94, 91, 91; sentiment 50, 56, 63, 70, 70; each open
equals the prior close. -/
def scenarioBars : List Bar :=
  [⟨100, 100, 100, 100, 50⟩, ⟨100, 100, 97, 97, 56⟩, ⟨97, 97, 94, 94, 63⟩,
   ⟨94, 94, 91, 91, 70⟩, ⟨91, 92, 91, 91, 70⟩]

lemma sigAt0 : signalAt 2 5 scenarioBars 0 = false := by
  norm_num [signalAt, visible, detect, detectFrom, evalPair, priceChangePct,
    barSample, scenarioBars]

lemma sigAt1 : signalAt 2 5 scenarioBars 1 = false := by
  norm_num [signalAt, visible, detect, detectFrom, evalPair, priceChangePct,
    barSample, scenarioBars]

lemma sigAt2 : signalAt 2 5 scenarioBars 2 = true := by
  norm_num [signalAt, visible, detect, detectFrom, evalPair, priceChangePct,
    barSample, scenarioBars]

lemma sigAt3 : signalAt 2 5 scenarioBars 3 = true := by
  norm_num [signalAt, visible, detect, detectFrom, evalPair, priceChangePct,
    barSample, scenarioBars]

lemma sigAt4 : signalAt 2 5 scenarioBars 4 = false := by
  norm_num [signalAt, visible, detect, detectFrom, evalPair, priceChangePct,
    barSample, scenarioBars]

lemma runTrades_scenario : runTrades 2 5 scenarioBars 5 = [⟨2, 3, 94⟩, ⟨3, 4, 91⟩] := by
  have len5 : scenarioBars.length = 5 := rfl
  have g3 : (scenarioBars.getD 3 defaultBar).bopen = 94 := rfl
  have g4 : (scenarioBars.getD 4 defaultBar).bopen = 91 := rfl
  simp [runTrades, List.range_succ, sigAt0, sigAt1, sigAt2, sigAt3, sigAt4, len5, g3, g4]
  exact ⟨rfl, rfl⟩

/-- C4: the replay decision at simulated day d is a function of the bars
with timestamp ≤ d only - any two series agreeing on that prefix yield the
same decision - and every simulated trade executes at the open of the bar
following its signal bar, never at the signal bar's own close. -/
theorem backtest_no_lookahead_and_next_bar_execution
    (tp ts : ℚ) (bars1 bars2 : List Bar) (d days : Nat) (t : Trade)
    (hpre : bars1.take (d + 1) = bars2.take (d + 1))
    (ht : t ∈ runTrades tp ts bars1 days) :
    signalAt tp ts bars1 d = signalAt tp ts bars2 d ∧
    t.exec_bar = t.signal_bar + 1 ∧
    t.exec_price = (bars1.getD (t.signal_bar + 1) defaultBar).bopen ∧
    t.signal_bar + 1 < bars1.length ∧
    signalAt tp ts bars1 t.signal_bar = true := by
  constructor
  · unfold signalAt visible
    rw [hpre]
  · rcases List.mem_filterMap.mp ht with ⟨d0, hd0, hsome⟩
    split_ifs at hsome with hcond
    injection hsome with hsome
    subst hsome
    exact ⟨rfl, rfl, hcond.2, hcond.1⟩

/-- Witness for C4 on the synthetic five-bar series: the trade fired at
day 2 executes at bar 3's open. -/
theorem backtest_no_lookahead_and_next_bar_execution_witness :
    signalAt 2 5 scenarioBars 2 = signalAt 2 5 scenarioBars 2 ∧
    (Trade.mk 2 3 94).exec_bar = (Trade.mk 2 3 94).signal_bar + 1 ∧
    (Trade.mk 2 3 94).exec_price =
      (scenarioBars.getD ((Trade.mk 2 3 94).signal_bar + 1) defaultBar).bopen ∧
    (Trade.mk 2 3 94).signal_bar + 1 < scenarioBars.length ∧
    signalAt 2 5 scenarioBars (Trade.mk 2 3 94).signal_bar = true :=
  backtest_no_lookahead_and_next_bar_execution 2 5 scenarioBars scenarioBars 2 5
    ⟨2, 3, 94⟩ rfl (by simp [runTrades_scenario])

/-- C5: with a fixed seed, runBacktest is independent of the ambient
entropy - two invocations with the same asset series, horizon, capital and
seed return identical outputs, equity curve and var_95 included - while
unseeded invocations draw the bootstrap seed from ambient entropy, and two
unseeded runs over the same data can return different var_95 values. -/
theorem backtest_fixed_seed_deterministic_unseeded_randomized
    (tp ts : ℚ) (bars : List Bar) (days : Nat) (capital : ℚ) (n s e1 e2 : Nat) :
    (runBacktest tp ts bars days capital n (some s) e1 =
      runBacktest tp ts bars days capital n (some s) e2) ∧
    (runBacktest 2 5 scenarioBars 5 10000 1 none 0).var_95 ≠
      (runBacktest 2 5 scenarioBars 5 10000 1 none 3).var_95 := by
  constructor
  · simp [runBacktest]
  · have hpnl : (runTrades 2 5 scenarioBars 5).map (tradePnl scenarioBars) = [-3, 0] := by
      rw [runTrades_scenario]
      norm_num [tradePnl, scenarioBars, defaultBar]
    simp only [runBacktest, hpnl]
    norm_num [bootstrapSums, drawSum, lcgNext, percentile05, List.insertionSort]

/-- Witness for C5 at seed 42 and entropy values 0 and 3. -/
theorem backtest_fixed_seed_deterministic_unseeded_randomized_witness :
    (runBacktest 2 5 scenarioBars 5 10000 1 (some 42) 0 =
      runBacktest 2 5 scenarioBars 5 10000 1 (some 42) 3) ∧
    (runBacktest 2 5 scenarioBars 5 10000 1 none 0).var_95 ≠
      (runBacktest 2 5 scenarioBars 5 10000 1 none 3).var_95 :=
  backtest_fixed_seed_deterministic_unseeded_randomized 2 5 scenarioBars 5 10000 1 42 0 3

/-! ## TradingSignal component (frontend, TradingSignal.tsx) -/

/-- Component-local state of TradingSignal.tsx: the dismissed flag and the
countdown value in seconds. -/
structure UIState where
  dismissed : Bool
  timeLeft : Nat
  deriving DecidableEq, Repr

/-- User and timer events the component reacts to. -/
inductive UIEvent where
  | clickAccept
  | clickDismiss
  | tick (nowMs : Nat)
  deriving DecidableEq, Repr

/-- Requests a component could send to the backend API. -/
inductive BackendRequest where
  | acceptSignal (id : String)
  | dismissSignal (id : String)
  deriving DecidableEq, Repr

/-- Shallow embedding of the TradingSignal.tsx handlers, with expiryMs the
signal's expires_at instant: the Accept BUY / Accept SELL button carries no
onClick handler, so the click leaves the state unchanged; Dismiss sets the
component-local dismissed flag; each one-second interval tick recomputes
remaining = max(0, (expiry - now) / 1000) (truncated Nat subtraction) and
sets dismissed when the countdown reaches zero.  No handler issues any
backend request. -/
def tradingSignalStep (expiryMs : Nat) (s : UIState) :
    UIEvent → UIState × List BackendRequest
  | UIEvent.clickAccept => (s, [])
  | UIEvent.clickDismiss => ({ s with dismissed := true }, [])
  | UIEvent.tick nowMs =>
    ({ dismissed := s.dismissed || decide ((expiryMs - nowMs) / 1000 = 0)
       timeLeft := (expiryMs - nowMs) / 1000 }, [])

/-- C9: clicking Accept changes no component state and issues no request;
no event of the component issues any backend request at all (in particular
neither acceptSignal nor dismissSignal is ever sent); Dismiss and the
countdown reaching zero merely set the component-local dismissed flag. -/
theorem trading_signal_accept_noop_and_no_backend_requests
    (expiryMs : Nat) (s : UIState) :
    tradingSignalStep expiryMs s UIEvent.clickAccept = (s, []) ∧
    (∀ ev, (tradingSignalStep expiryMs s ev).2 = []) ∧
    (tradingSignalStep expiryMs s UIEvent.clickDismiss).1.dismissed = true ∧
    (∀ nowMs, expiryMs ≤ nowMs →
      (tradingSignalStep expiryMs s (UIEvent.tick nowMs)).1.dismissed = true) := by
  refine ⟨rfl, fun ev => ?_, rfl, fun nowMs h => ?_⟩
  · cases ev <;> rfl
  · simp [tradingSignalStep, Nat.sub_eq_zero_of_le h]

/-- Witness for C9 at a signal expiring at millisecond 1000 and a live
component state. -/
theorem trading_signal_accept_noop_and_no_backend_requests_witness :
    tradingSignalStep 1000 ⟨false, 5⟩ UIEvent.clickAccept = (⟨false, 5⟩, []) ∧
    (∀ ev, (tradingSignalStep 1000 ⟨false, 5⟩ ev).2 = []) ∧
    (tradingSignalStep 1000 ⟨false, 5⟩ UIEvent.clickDismiss).1.dismissed = true ∧
    (∀ nowMs, 1000 ≤ nowMs →
      (tradingSignalStep 1000 ⟨false, 5⟩ (UIEvent.tick nowMs)).1.dismissed = true) :=
  trading_signal_accept_noop_and_no_backend_requests 1000 ⟨false, 5⟩

/-! ## API-failure fallbacks of the data hooks (frontend) -/

/-- Sentiment payload of useSentiment.ts, with the per-source breakdown
flattened into fields. -/
structure SentimentData where
  sentiment_score : ℚ
  bullish_count : Nat
  bearish_count : Nat
  confidence : ℚ
  twitter_count : Nat
  twitter_quality : ℚ
  reddit_count : Nat
  reddit_quality : ℚ
  news_count : Nat
  news_quality : ℚ
  discord_count : Nat
  discord_quality : ℚ
  deriving DecidableEq, Repr

/-- The hard-coded MOCK_SENTIMENT fallback of useSentiment.ts. -/
def MOCK_SENTIMENT : SentimentData :=
  ⟨72, 12450, 4850, 85, 8500, 78, 3200, 82, 1850, 91, 3750, 75⟩

/-- Divergence payload of the useDivergence hook. -/
structure Divergence where
  divergence_type : DivType
  sentiment_change_percent : ℚ
  price_change_percent : ℚ
  reversal_probability : ℚ
  historical_avg_profit : ℚ
  deriving DecidableEq, Repr

/-- The hard-coded MOCK_DIVERGENCE fallback of the useDivergence hook. -/
def MOCK_DIVERGENCE : Divergence := ⟨DivType.bullish, 15.2, -3.8, 72, 8.5⟩

/-- Result payload displayed by PositionCalculator.tsx. -/
structure CalcResult where
  position_size_usd : ℚ
  position_size_percent : ℚ
  max_loss_usd : ℚ
  max_gain_usd : ℚ
  risk_reward_ratio : ℚ
  status : RRStatus
  deriving DecidableEq, Repr

/-- The fixed fallback result hard-coded in the catch branch of
PositionCalculator.tsx calculate(). -/
def FALLBACK_CALC : CalcResult := ⟨5000, 50, 200, 600, 3, RRStatus.Good⟩

/-- Shallow embedding of the fetch handler of useSignal
(src/unnamed/part_007): a successful response with data is used as is; an
empty response or any error falls back to MOCK_SIGNAL. -/
def useSignalResolve : Except String (Option Signal) → Signal
  | Except.ok (some s) => s
  | Except.ok none => MOCK_SIGNAL
  | Except.error _ => MOCK_SIGNAL

/-- Shallow embedding of the fetch handler of useSentiment.ts: on error the
data becomes MOCK_SENTIMENT and the error state is cleared to none. -/
def useSentimentResolve : Except String SentimentData → SentimentData × Option String
  | Except.ok d => (d, none)
  | Except.error _ => (MOCK_SENTIMENT, none)

/-- Shallow embedding of the fetch handler of useDivergence
(src/unnamed/part_008): response data when present, MOCK_DIVERGENCE
otherwise, also on error. -/
def useDivergenceResolve : Except String (Option Divergence) → Divergence
  | Except.ok r => r.getD MOCK_DIVERGENCE
  | Except.error _ => MOCK_DIVERGENCE

/-- Shallow embedding of PositionCalculator.tsx calculate(): on API failure
the fixed fallback result is displayed. -/
def calculateResolve : Except String CalcResult → CalcResult
  | Except.ok r => r
  | Except.error _ => FALLBACK_CALC

/-- C10: for every failed request, the hooks substitute their hard-coded
mocks instead of surfacing the failure: useSignal yields MOCK_SIGNAL,
useSentiment yields MOCK_SENTIMENT with the error state cleared,
useDivergence yields MOCK_DIVERGENCE, and PositionCalculator displays the
fixed fallback with position_size_percent 50 and status Good - so at the
UI boundary an API failure is indistinguishable from live output. -/
theorem api_failure_replaced_by_hardcoded_mocks (e : String) :
    useSignalResolve (Except.error e) = MOCK_SIGNAL ∧
    useSentimentResolve (Except.error e) = (MOCK_SENTIMENT, none) ∧
    useDivergenceResolve (Except.error e) = MOCK_DIVERGENCE ∧
    calculateResolve (Except.error e) = FALLBACK_CALC ∧
    FALLBACK_CALC.position_size_percent = 50 ∧
    FALLBACK_CALC.status = RRStatus.Good :=
  ⟨rfl, rfl, rfl, rfl, rfl, rfl⟩

/-- Witness for C10 at a concrete network error. -/
theorem api_failure_replaced_by_hardcoded_mocks_witness :
    useSignalResolve (Except.error "Network Error") = MOCK_SIGNAL ∧
    useSentimentResolve (Except.error "Network Error") = (MOCK_SENTIMENT, none) ∧
    useDivergenceResolve (Except.error "Network Error") = MOCK_DIVERGENCE ∧
    calculateResolve (Except.error "Network Error") = FALLBACK_CALC ∧
    FALLBACK_CALC.position_size_percent = 50 ∧
    FALLBACK_CALC.status = RRStatus.Good :=
  api_failure_replaced_by_hardcoded_mocks "Network Error"

end SentiTrade
